import Mathlib

/-!
Shallow embedding of the AI-powered itinerary worker
(`src/worker.js`, a Cloudflare Worker) for checking the natural-language
specification against the code.

The worker exposes a POST endpoint that validates the request body,
creates a Firestore job document, schedules background itinerary
generation, and returns a `jobId`; the background task calls the OpenAI
completion API once, parses and Zod-validates the returned JSON, and
patches the job document to a terminal `completed`/`failed` state.

External collaborators (the OpenAI completion endpoint, Firestore, the
OAuth token endpoint, `JSON.parse`, WebCrypto signing) are modelled as
oracles supplied through environment records; the worker's own control
flow and data manipulation are translated directly from the source.
-/

namespace Itin

/-- A JSON/JavaScript number as an exact fraction `num / den` with
`den > 0` in every constructed value. JSON numeric literals denote
finite decimal values (never NaN/Infinity), so this captures every
number a parsed request body or completion payload can hold. -/
structure JsNum where
  num : ℤ
  den : ℕ
deriving DecidableEq, Repr

/-- JavaScript's `Number.isInteger` (Zod's `.int()`). -/
def JsNum.isInt (q : JsNum) : Bool := q.num % (q.den : ℤ) = 0

/-- `1 ≤ q`, i.e. the negation of the code's `q < 1` rejection test
(for `den > 0`). -/
def JsNum.geOne (q : JsNum) : Bool := (q.den : ℤ) ≤ q.num

/-- The integer value of an integral `JsNum`. -/
def JsNum.toInt (q : JsNum) : ℤ := q.num / (q.den : ℤ)

/-- An integer literal as a JavaScript number. -/
def JsNum.ofInt (n : ℤ) : JsNum := ⟨n, 1⟩

/-- JSON values, as produced by `JSON.parse` / `request.json()`. -/
inductive Jv where
  | null : Jv
  | bool (b : Bool) : Jv
  | num (q : JsNum) : Jv
  | str (s : String) : Jv
  | arr (xs : List Jv) : Jv
  | obj (kvs : List (String × Jv)) : Jv

/-- Property lookup on a JSON value: `v.k` in JavaScript. Parsed JSON
objects have unique keys, so first-match lookup is the object lookup. -/
def jLookup : Jv → String → Option Jv
  | .obj kvs, k => (kvs.find? (fun p => p.1 = k)).map (fun p => p.2)
  | _, _ => none

/-- `activitySchema` from worker.js:
`z.object({ time: z.enum(['Morning','Afternoon','Evening']), description: z.string().min(1), location: z.string().min(1) })`. -/
def activityCheck (v : Jv) : Bool :=
  match jLookup v "time", jLookup v "description", jLookup v "location" with
  | some (.str t), some (.str d), some (.str l) =>
      (t = "Morning" || t = "Afternoon" || t = "Evening") && d.length ≥ 1 && l.length ≥ 1
  | _, _, _ => false

/-- `daySchema` from worker.js:
`z.object({ day: z.number().int().min(1), theme: z.string().min(1), activities: z.array(activitySchema).length(3) })`. -/
def dayCheck (v : Jv) : Bool :=
  match jLookup v "day", jLookup v "theme", jLookup v "activities" with
  | some (.num q), some (.str th), some (.arr acts) =>
      (q.isInt && q.geOne) && th.length ≥ 1 && (acts.length = 3 && acts.all activityCheck)
  | _, _, _ => false

/-- `itinerarySchema` from worker.js:
`z.object({ destination: z.string().min(1), durationDays: z.number().int().min(1), itinerary: z.array(daySchema) })`.
Note: the `itinerary` array has no length constraint at all (it may be
empty and is not tied to the requested `durationDays`). -/
def itineraryCheck (v : Jv) : Bool :=
  match jLookup v "destination", jLookup v "durationDays", jLookup v "itinerary" with
  | some (.str d), some (.num q), some (.arr days) =>
      d.length ≥ 1 && (q.isInt && q.geOne) && days.all dayCheck
  | _, _, _ => false

/-- Input validation of the POST body from worker.js:
`typeof destination !== 'string' || !destination.trim() || typeof durationDays !== 'number' || isNaN(durationDays) || durationDays < 1`.
The body comes from `request.json()`, so `durationDays` is a JSON
number (never NaN), and no integrality check is performed. -/
def validSubmit (body : Jv) : Bool :=
  match jLookup body "destination", jLookup body "durationDays" with
  | some (.str dest), some (.num q) =>
      !(dest.data.all (fun c => c.isWhitespace)) && q.geOne
  | _, _ => false

/-- Job status enum of the data model: `processing | completed | failed`. -/
inductive Status where
  | processing : Status
  | completed : Status
  | failed : Status
deriving DecidableEq, Repr

/-- One activity as written into the Firestore `itinerary` field by the
completed-status update (`time`/`description`/`location` string fields). -/
structure Activity where
  time : String
  description : String
  location : String
deriving DecidableEq, Repr

/-- One day entry as written into the Firestore `itinerary` field
(`day` integer, `theme` string, `activities` array). -/
structure Day where
  day : ℤ
  theme : String
  activities : List Activity
deriving DecidableEq, Repr

/-- A job document in the `itineraries` collection, keyed by `jobId`.
Timestamps are abstract clock ticks; `completedAt`/`error` are nullable. -/
structure JobDoc where
  jobId : String
  status : Status
  destination : String
  durationDays : JsNum
  createdAt : Option Nat
  completedAt : Option Nat
  itinerary : List Day
  error : Option String
deriving DecidableEq, Repr

/-- The field set of one Firestore PATCH payload: `some x` means the
payload carries that field with value `x`, `none` that the payload omits
it. (`jobId` is the document key in the URL, never a payload field.) -/
structure PatchFields where
  status : Option Status
  destination : Option String
  durationDays : Option JsNum
  createdAt : Option (Option Nat)
  completedAt : Option (Option Nat)
  itinerary : Option (List Day)
  error : Option (Option String)
deriving DecidableEq, Repr

/-- Document-store patch at the interface boundary of §4.2 of the spec:
fields present in the payload overwrite the document's, omitted fields
are untouched. (The store engine itself is an external collaborator;
this is its contracted behaviour for `patchTerminal`.) -/
def applyPatch (d : JobDoc) (p : PatchFields) : JobDoc :=
  { jobId := d.jobId
    status := p.status.getD d.status
    destination := p.destination.getD d.destination
    durationDays := p.durationDays.getD d.durationDays
    createdAt := p.createdAt.getD d.createdAt
    completedAt := p.completedAt.getD d.completedAt
    itinerary := p.itinerary.getD d.itinerary
    error := p.error.getD d.error }

/-- The `createPayload` of the POST handler: `status=processing`, caller
fields, `createdAt` now, `completedAt=null`, `itinerary=[]`, `error=null`. -/
def createFields (dest : String) (dur : JsNum) (t : Nat) : PatchFields :=
  { status := some .processing
    destination := some dest
    durationDays := some dur
    createdAt := some (some t)
    completedAt := some none
    itinerary := some []
    error := some none }

/-- The job document as it stands right after the initial create write. -/
def createDoc (jobId dest : String) (dur : JsNum) (t : Nat) : JobDoc :=
  { jobId := jobId
    status := .processing
    destination := dest
    durationDays := dur
    createdAt := some t
    completedAt := none
    itinerary := []
    error := none }

/-- The `updatePayload` of `generateItinerary`'s success path:
`status=completed`, the mapped itinerary, `completedAt` now, `error=null`.
It carries no `destination`/`durationDays`/`createdAt` fields. -/
def completedFields (days : List Day) (t : Nat) : PatchFields :=
  { status := some .completed
    destination := none
    durationDays := none
    createdAt := none
    completedAt := some (some t)
    itinerary := some days
    error := some none }

/-- The `errorPayload` of `generateItinerary`'s catch block:
`status=failed`, `completedAt` now, `error` = the thrown message.
It carries no `destination`/`durationDays`/`createdAt`/`itinerary` fields. -/
def failedFields (msg : String) (t : Nat) : PatchFields :=
  { status := some .failed
    destination := none
    durationDays := none
    createdAt := none
    completedAt := some (some t)
    itinerary := none
    error := some (some msg) }

/-- The per-activity mapping of `updatePayload`: reads
`activity.time/.description/.location` from the validated JSON
(defaults are unreachable after validation; they keep the function total). -/
def extractActivity (v : Jv) : Activity :=
  { time := match jLookup v "time" with | some (.str t) => t | _ => ""
    description := match jLookup v "description" with | some (.str s) => s | _ => ""
    location := match jLookup v "location" with | some (.str s) => s | _ => "" }

/-- The per-day mapping of `updatePayload`: reads `day.day/.theme` and
maps `day.activities`. -/
def extractDay (v : Jv) : Day :=
  { day := match jLookup v "day" with | some (.num q) => q.toInt | _ => 0
    theme := match jLookup v "theme" with | some (.str s) => s | _ => ""
    activities := match jLookup v "activities" with
      | some (.arr xs) => xs.map extractActivity
      | _ => [] }

/-- `itineraryObj.itinerary.map(day => ...)` of the completed-status
update: the itinerary written to the store, from the validated payload. -/
def extractDays (v : Jv) : List Day :=
  match jLookup v "itinerary" with
  | some (.arr xs) => xs.map extractDay
  | _ => []

/-- The text of a completion message, at the `JSON.parse` boundary:
either a string that parses to some JSON value, or one that does not
(carrying the `SyntaxError` message). -/
inductive ContentModel where
  | valid (v : Jv) : ContentModel
  | invalid (parseDiag : String) : ContentModel

/-- Outcome of one `openai.chat.completions.create` call. A successful
response's `message.content` may be absent/null (`none`). Failures carry
the provider error class and the thrown error's message. -/
inductive ProviderError where
  | rateLimit : ProviderError
  | serverError : ProviderError
  | auth : ProviderError
  | badRequest : ProviderError
deriving DecidableEq, Repr

/-- Whether a provider failure class is transient (rate-limit or
server-error) in the sense of the spec's retry policy. -/
def ProviderError.transient : ProviderError → Bool
  | .rateLimit => true
  | .serverError => true
  | .auth => false
  | .badRequest => false

inductive CompletionResult where
  | success (content : Option ContentModel) : CompletionResult
  | failure (e : ProviderError) (msg : String) : CompletionResult

/-- External-world oracle for one background `generateItinerary` run:
the completion endpoint indexed by attempt number, the Zod diagnostic
text, and the outcomes of the token mints and store writes it performs. -/
structure RunEnv where
  completion : Nat → CompletionResult
  zodDiag : String
  mintOk : Bool
  mintErrMsg : String
  completedWriteOk : Bool
  storeErrText : String
  catchMintOk : Bool
  failedWriteOk : Bool
  tick : Nat

/-- `content ?? '{}'` followed by `JSON.parse(content)`: absent/null
content is replaced by the literal `'{}'`, which parses to the empty
object; a non-JSON string throws, and the code rethrows
`'Invalid JSON returned by OpenAI: ' + err.message`. -/
def parseContent : Option ContentModel → Except String Jv
  | none => .ok (.obj [])
  | some (.valid v) => .ok v
  | some (.invalid d) => .error ("Invalid JSON returned by OpenAI: " ++ d)

/-- The generation stage of `generateItinerary`, up to (not including)
the store update: one completion call (attempt 0 of the oracle — the
code has no retry loop), then `JSON.parse`, then Zod validation, whose
failure is rethrown as `'Invalid itinerary structure: ' + err.message`. -/
def generateResult (env : RunEnv) : Except String (List Day) :=
  match env.completion 0 with
  | .failure _ msg => .error msg
  | .success c =>
    match parseContent c with
    | .error m => .error m
    | .ok v =>
      if itineraryCheck v then .ok (extractDays v)
      else .error ("Invalid itinerary structure: " ++ env.zodDiag)

/-- Observable external actions of one background run, in order.
`sleep` would be a backoff delay; the code never emits one. -/
inductive RunEvent where
  | completionCall (attempt : Nat) : RunEvent
  | mintCall (ok : Bool) : RunEvent
  | patchWrite (p : PatchFields) (ok : Bool) : RunEvent
  | sleep (ms : Nat) : RunEvent
deriving DecidableEq, Repr

/-- The catch block of `generateItinerary`: mint a token and PATCH
`status=failed` with the caught error's message; any failure inside the
block is logged and swallowed, leaving the document untouched. -/
def catchBranch (env : RunEnv) (d : JobDoc) (msg : String) : JobDoc × List RunEvent :=
  if env.catchMintOk then
    let p := failedFields msg env.tick
    (if env.failedWriteOk then applyPatch d p else d,
     [.mintCall true, .patchWrite p env.failedWriteOk])
  else (d, [.mintCall false])

/-- `generateItinerary(jobId, destination, durationDays)` as a state
transformer on the job document, returning the new document and the
trace of external actions: one completion call; on success of
generation and validation, mint + completed PATCH; any thrown error
reaches the catch block. -/
def runGenerate (env : RunEnv) (d : JobDoc) : JobDoc × List RunEvent :=
  match generateResult env with
  | .error m =>
    let r := catchBranch env d m
    (r.1, .completionCall 0 :: r.2)
  | .ok days =>
    if env.mintOk then
      let p := completedFields days env.tick
      if env.completedWriteOk then
        (applyPatch d p, [.completionCall 0, .mintCall true, .patchWrite p true])
      else
        let r := catchBranch env d ("Firestore update failed: " ++ env.storeErrText)
        (r.1, [.completionCall 0, .mintCall true, .patchWrite p false] ++ r.2)
    else
      let r := catchBranch env d env.mintErrMsg
      (r.1, [.completionCall 0, .mintCall false] ++ r.2)

/-- External-world oracle for one POST request: the parsed body
(`none` when `request.json()` throws), and the outcomes of the token
mint and the initial create write. -/
structure PostEnv where
  body : Option Jv
  mintOk : Bool
  createOk : Bool
  tick : Nat

/-- The destructured `destination` of a body that passed validation
(validation guarantees the string case). -/
def bodyDest (b : Jv) : String :=
  match jLookup b "destination" with | some (.str s) => s | _ => ""

/-- The destructured `durationDays` of a body that passed validation. -/
def bodyDur (b : Jv) : JsNum :=
  match jLookup b "durationDays" with | some (.num q) => q | _ => ⟨0, 1⟩

/-- Observable actions of the POST handler, in order: the initial
create write, scheduling of the background task via `ctx.waitUntil`,
and the HTTP response (status code, whether the body carries `jobId`). -/
inductive PostEvent where
  | storeCreate (p : PatchFields) (ok : Bool) : PostEvent
  | scheduleRun : PostEvent
  | respond (status : Nat) (withJobId : Bool) : PostEvent
deriving DecidableEq, Repr

/-- The POST branch of the worker's `fetch` handler: parse the body,
validate it (400 on failure, nothing written), mint a token and await
the create write (500 on failure, nothing scheduled), then schedule
`generateItinerary` and respond 202 with the `jobId`. -/
def handlePost (env : PostEnv) : List PostEvent :=
  match env.body with
  | none => [.respond 400 false]
  | some b =>
    if validSubmit b then
      if env.mintOk then
        let p := createFields (bodyDest b) (bodyDur b) env.tick
        if env.createOk then
          [.storeCreate p true, .scheduleRun, .respond 202 true]
        else
          [.storeCreate p false, .respond 500 false]
      else [.respond 500 false]
    else [.respond 400 false]

/- ### Token minter (`getFirebaseAuthToken`) -/

/-- The `scope` claim of the signed assertion. -/
def datastoreScope : String := "https://www.googleapis.com/auth/datastore"

/-- The `aud` claim and the URL the assertion is exchanged at. -/
def tokenEndpoint : String := "https://oauth2.googleapis.com/token"

/-- The JWT claims payload built by `getFirebaseAuthToken`. -/
structure JwtClaims where
  iss : String
  scope : String
  aud : String
  iat : Nat
  exp : Nat
deriving DecidableEq, Repr

/-- The (only) signature scheme the code uses:
`RSASSA-PKCS1-v1_5` with `SHA-256`. -/
inductive SigAlg where
  | rsassaPkcs1v15Sha256 : SigAlg
deriving DecidableEq, Repr

/-- External-world oracle for one mint: the service-account email, the
current clock, the base64url encodings (opaque here), and the outcomes
of the WebCrypto sign and the token-endpoint exchange. -/
structure MintEnv where
  clientEmail : String
  now : Nat
  headerB64 : String
  payloadB64 : JwtClaims → String
  signOk : Bool
  signErrMsg : String
  exchangeOk : Bool
  exchangeErrText : String
  accessToken : String

/-- What one call to `getFirebaseAuthToken` built and did: the claims
payload, the signature scheme, the exact signed input, whether the
exchange was reached, and the propagated outcome. -/
structure MintTrace where
  claims : JwtClaims
  signAlg : SigAlg
  signInput : String
  exchangeAttempted : Bool
  outcome : Except String String

/-- `getFirebaseAuthToken`: build header and claims (`iss` = service
email, fixed `scope` and `aud`, `iat` = now, `exp` = now + 3600), sign
`header + '.' + payload` with RSASSA-PKCS1-v1_5/SHA-256, POST the
assertion to the token endpoint. A sign failure throws before the
exchange; a non-ok exchange throws
`'Failed to get Firebase token: ' + text`; the catch block rethrows the
same error: no retry, no masking. -/
def getFirebaseAuthToken (env : MintEnv) : MintTrace :=
  let claims : JwtClaims :=
    { iss := env.clientEmail
      scope := datastoreScope
      aud := tokenEndpoint
      iat := env.now
      exp := env.now + 3600 }
  let input := env.headerB64 ++ "." ++ env.payloadB64 claims
  if env.signOk then
    if env.exchangeOk then
      { claims := claims, signAlg := .rsassaPkcs1v15Sha256, signInput := input
        exchangeAttempted := true, outcome := .ok env.accessToken }
    else
      { claims := claims, signAlg := .rsassaPkcs1v15Sha256, signInput := input
        exchangeAttempted := true
        outcome := .error ("Failed to get Firebase token: " ++ env.exchangeErrText) }
  else
    { claims := claims, signAlg := .rsassaPkcs1v15Sha256, signInput := input
      exchangeAttempted := false, outcome := .error env.signErrMsg }

/- ### Helper lemmas -/

/-- A day written by the completed-status update is well-formed in the
sense the schema guarantees: exactly 3 activities, each with an enum
`time`. -/
def GoodDay (d : Day) : Prop :=
  d.activities.length = 3 ∧
    ∀ a ∈ d.activities,
      a.time = "Morning" ∨ a.time = "Afternoon" ∨ a.time = "Evening"

theorem activityCheck_time (a : Jv) (h : activityCheck a = true) :
    (extractActivity a).time = "Morning" ∨ (extractActivity a).time = "Afternoon" ∨
      (extractActivity a).time = "Evening" := by
  unfold activityCheck at h
  unfold extractActivity
  split at h
  case _ t d l h1 h2 h3 =>
    simp only [h1]
    simp only [Bool.and_eq_true, Bool.or_eq_true, decide_eq_true_eq] at h
    tauto
  case _ => exact absurd h (by simp)

theorem dayCheck_good (j : Jv) (h : dayCheck j = true) : GoodDay (extractDay j) := by
  unfold dayCheck at h
  unfold GoodDay extractDay
  split at h
  case _ q th acts h1 h2 h3 =>
    simp only [h3]
    simp only [Bool.and_eq_true, decide_eq_true_eq, List.all_eq_true] at h
    obtain ⟨-, hlen, hall⟩ := h
    constructor
    · simpa using hlen
    · intro a ha
      simp only [List.mem_map] at ha
      obtain ⟨x, hx, rfl⟩ := ha
      exact activityCheck_time x (hall x hx)
  case _ => exact absurd h (by simp)

theorem itineraryCheck_good (v : Jv) (h : itineraryCheck v = true) :
    ∀ d ∈ extractDays v, GoodDay d := by
  unfold itineraryCheck at h
  unfold extractDays
  split at h
  case _ dst q days h1 h2 h3 =>
    simp only [h3]
    simp only [Bool.and_eq_true, List.all_eq_true] at h
    obtain ⟨-, hall⟩ := h
    intro d hd
    simp only [List.mem_map] at hd
    obtain ⟨x, hx, rfl⟩ := hd
    exact dayCheck_good x (hall x hx)
  case _ => exact absurd h (by simp)

/-- Inversion of the generation stage: a produced itinerary comes from a
successful completion whose content parsed and passed the schema. -/
theorem generateResult_ok (env : RunEnv) (days : List Day)
    (h : generateResult env = .ok days) :
    ∃ c v, env.completion 0 = .success c ∧ parseContent c = .ok v ∧
      itineraryCheck v = true ∧ days = extractDays v := by
  cases hc : env.completion 0 with
  | failure e msg => simp only [generateResult, hc] at h; exact absurd h (by simp)
  | success c =>
    simp only [generateResult, hc] at h
    cases hp : parseContent c with
    | error m => simp only [hp] at h; exact absurd h (by simp)
    | ok v =>
      simp only [hp] at h
      by_cases hv : itineraryCheck v = true
      · rw [if_pos hv] at h
        exact ⟨c, v, rfl, hp, hv, by injection h with h; exact h.symm⟩
      · rw [if_neg hv] at h; exact absurd h (by simp)

/-- Every run either leaves the document untouched, applies the
completed patch for some validated itinerary, or applies a failed patch. -/
theorem runGenerate_cases (env : RunEnv) (d : JobDoc) :
    (runGenerate env d).1 = d ∨
    (∃ days, generateResult env = .ok days ∧
      (runGenerate env d).1 = applyPatch d (completedFields days env.tick)) ∨
    (∃ m, (runGenerate env d).1 = applyPatch d (failedFields m env.tick)) := by
  unfold runGenerate catchBranch
  cases hg : generateResult env with
  | error m =>
    by_cases h1 : env.catchMintOk = true
    · by_cases h2 : env.failedWriteOk = true
      · right; right; exact ⟨m, by simp [h1, h2]⟩
      · left; simp [h1, h2]
    · left; simp [h1]
  | ok days =>
    by_cases hm : env.mintOk = true
    · by_cases hw : env.completedWriteOk = true
      · right; left; exact ⟨days, rfl, by simp [hm, hw]⟩
      · by_cases h1 : env.catchMintOk = true
        · by_cases h2 : env.failedWriteOk = true
          · right; right
            exact ⟨"Firestore update failed: " ++ env.storeErrText, by simp [hm, hw, h1, h2]⟩
          · left; simp [hm, hw, h1, h2]
        · left; simp [hm, hw, h1]
    · by_cases h1 : env.catchMintOk = true
      · by_cases h2 : env.failedWriteOk = true
        · right; right; exact ⟨env.mintErrMsg, by simp [hm, h1, h2]⟩
        · left; simp [hm, h1, h2]
      · left; simp [hm, h1]

/-- When the catch block's own mint and write succeed, it applies the
failed patch. -/
theorem catchBranch_writes (env : RunEnv) (d : JobDoc) (m : String)
    (h1 : env.catchMintOk = true) (h2 : env.failedWriteOk = true) :
    (catchBranch env d m).1 = applyPatch d (failedFields m env.tick) := by
  simp [catchBranch, h1, h2]

/-- When the catch block's mint or write fails, the failure is
swallowed and the document is left untouched. -/
theorem catchBranch_swallows (env : RunEnv) (d : JobDoc) (m : String)
    (h : env.catchMintOk = false ∨ env.failedWriteOk = false) :
    (catchBranch env d m).1 = d := by
  rcases h with h | h
  · simp [catchBranch, h]
  · by_cases h1 : env.catchMintOk = true
    · simp [catchBranch, h1, h]
    · simp [catchBranch, h1]

/-- A thrown generation error reaches the catch block. -/
theorem runGenerate_error (env : RunEnv) (d : JobDoc) (m : String)
    (hg : generateResult env = .error m) :
    (runGenerate env d).1 = (catchBranch env d m).1 := by
  unfold runGenerate
  rw [hg]

/-- A completed-status write failure is rethrown as
`'Firestore update failed: ' + text` and reaches the catch block. -/
theorem runGenerate_updateFail (env : RunEnv) (d : JobDoc) (days : List Day)
    (hg : generateResult env = .ok days) (hm : env.mintOk = true)
    (hw : env.completedWriteOk = false) :
    (runGenerate env d).1 =
      (catchBranch env d ("Firestore update failed: " ++ env.storeErrText)).1 := by
  unfold runGenerate
  rw [hg]
  simp [hm, hw]

/-- A mint failure before the completed-status write propagates its
message to the catch block. -/
theorem runGenerate_mintFail (env : RunEnv) (d : JobDoc) (days : List Day)
    (hg : generateResult env = .ok days) (hm : env.mintOk = false) :
    (runGenerate env d).1 = (catchBranch env d env.mintErrMsg).1 := by
  unfold runGenerate
  rw [hg]
  simp [hm]

/- ### Claim theorems -/

/-- Concrete run oracle for C1: the completion endpoint answers attempt
0 with a rate-limit (transient) failure; every store/mint interaction
would succeed. -/
def c1Env : RunEnv :=
  { completion := fun _ => .failure .rateLimit "429 Too Many Requests"
    zodDiag := ""
    mintOk := true
    mintErrMsg := ""
    completedWriteOk := true
    storeErrText := ""
    catchMintOk := true
    failedWriteOk := true
    tick := 7 }

/-- C1: the claim (and the repository's README) say a transient
completion failure is retried up to 3 attempts with 1s/2s/4s backoff
plus jitter before a `ProviderUnavailable` error; the code has no retry
loop at all. On a first-attempt rate-limit failure the run makes
exactly one completion call, sleeps never, and immediately writes
`status=failed` carrying the provider's raw error message. -/
theorem c1_no_retry_on_transient_failure :
    (ProviderError.rateLimit.transient = true) ∧
    (runGenerate c1Env (createDoc "job-1" "Paris" ⟨3, 1⟩ 0)).2 =
      [.completionCall 0, .mintCall true,
        .patchWrite (failedFields "429 Too Many Requests" 7) true] ∧
    ((runGenerate c1Env (createDoc "job-1" "Paris" ⟨3, 1⟩ 0)).2.countP
      (fun e => match e with | .completionCall _ => true | _ => false)) = 1 ∧
    ((runGenerate c1Env (createDoc "job-1" "Paris" ⟨3, 1⟩ 0)).2.all
      (fun e => match e with | .sleep _ => false | _ => true)) = true ∧
    (runGenerate c1Env (createDoc "job-1" "Paris" ⟨3, 1⟩ 0)).1.status = .failed ∧
    (runGenerate c1Env (createDoc "job-1" "Paris" ⟨3, 1⟩ 0)).1.error =
      some "429 Too Many Requests" := by
  decide

/-- The POST body `{"destination": "Paris", "durationDays": 1.5}` (the
number 1.5 is the fraction 3/2). -/
def c5Body : Jv := .obj [("destination", .str "Paris"), ("durationDays", .num ⟨3, 2⟩)]

/-- C5: the claim (and the code's own 400 message, which demands
`durationDays: integer >= 1`) says non-integer values are rejected; the
code checks only `typeof durationDays !== 'number'`, `isNaN`, and
`< 1`, so `durationDays = 1.5` is accepted: a job document is created
and a 202 with a `jobId` is returned. Zero, negative and non-numeric
values are rejected as claimed. -/
theorem c5_noninteger_duration_accepted :
    validSubmit c5Body = true ∧
    handlePost { body := some c5Body, mintOk := true, createOk := true, tick := 0 } =
      [.storeCreate (createFields "Paris" ⟨3, 2⟩ 0) true, .scheduleRun, .respond 202 true] ∧
    handlePost { body := some (.obj [("destination", .str "Paris"), ("durationDays", .num ⟨0, 1⟩)])
                 mintOk := true, createOk := true, tick := 0 } =
      [.respond 400 false] ∧
    handlePost { body := some (.obj [("destination", .str "Paris"), ("durationDays", .num ⟨-2, 1⟩)])
                 mintOk := true, createOk := true, tick := 0 } =
      [.respond 400 false] ∧
    handlePost { body := some (.obj [("destination", .str "Paris"), ("durationDays", .str "3")])
                 mintOk := true, createOk := true, tick := 0 } =
      [.respond 400 false] := by
  decide

/-- C8: both terminal PATCH payloads omit the `destination`,
`durationDays` and `createdAt` fields (the failed payload also omits
`itinerary`), and the document key `jobId` is not a payload field at
all, so under the store's patch semantics every terminal write
preserves the values those fields received at creation. -/
theorem c8_terminal_write_frame (d : JobDoc) (days : List Day) (msg : String) (t : Nat) :
    ((completedFields days t).destination = none ∧
     (completedFields days t).durationDays = none ∧
     (completedFields days t).createdAt = none) ∧
    ((failedFields msg t).destination = none ∧
     (failedFields msg t).durationDays = none ∧
     (failedFields msg t).createdAt = none ∧
     (failedFields msg t).itinerary = none) ∧
    ((applyPatch d (completedFields days t)).jobId = d.jobId ∧
     (applyPatch d (completedFields days t)).destination = d.destination ∧
     (applyPatch d (completedFields days t)).durationDays = d.durationDays ∧
     (applyPatch d (completedFields days t)).createdAt = d.createdAt) ∧
    ((applyPatch d (failedFields msg t)).jobId = d.jobId ∧
     (applyPatch d (failedFields msg t)).destination = d.destination ∧
     (applyPatch d (failedFields msg t)).durationDays = d.durationDays ∧
     (applyPatch d (failedFields msg t)).createdAt = d.createdAt ∧
     (applyPatch d (failedFields msg t)).itinerary = d.itinerary) := by
  simp [applyPatch, completedFields, failedFields]

/-- C9: every mint builds a claims payload with `iss` = the service
identity, `scope` = the datastore capability, `aud` = the token
endpoint, `iat` = now and `exp` = now + 3600 seconds, signs
`header + '.' + payload` under RSASSA-PKCS1-v1_5/SHA-256, and exchanges
the assertion at the token endpoint; a sign failure is propagated
verbatim before any exchange, an exchange failure is propagated as
`'Failed to get Firebase token: ' + text`, and no retry happens inside. -/
theorem c9_mint_claims_and_propagation (env : MintEnv) :
    (getFirebaseAuthToken env).claims =
      { iss := env.clientEmail, scope := datastoreScope, aud := tokenEndpoint
        iat := env.now, exp := env.now + 3600 } ∧
    (getFirebaseAuthToken env).claims.exp = (getFirebaseAuthToken env).claims.iat + 3600 ∧
    (getFirebaseAuthToken env).signAlg = .rsassaPkcs1v15Sha256 ∧
    (getFirebaseAuthToken env).signInput =
      env.headerB64 ++ "." ++ env.payloadB64 (getFirebaseAuthToken env).claims ∧
    (env.signOk = false →
      (getFirebaseAuthToken env).outcome = .error env.signErrMsg ∧
      (getFirebaseAuthToken env).exchangeAttempted = false) ∧
    (env.signOk = true → env.exchangeOk = false →
      (getFirebaseAuthToken env).outcome =
        .error ("Failed to get Firebase token: " ++ env.exchangeErrText)) ∧
    (env.signOk = true → env.exchangeOk = true →
      (getFirebaseAuthToken env).outcome = .ok env.accessToken) := by
  unfold getFirebaseAuthToken
  by_cases hs : env.signOk = true
  · by_cases he : env.exchangeOk = true
    · simp [hs, he]
    · simp [hs, he]
  · simp [hs]

/-- Witness for C9 at a concrete mint environment. -/
theorem c9_mint_claims_and_propagation_witness :
    (getFirebaseAuthToken
        { clientEmail := "svc@example.iam.gserviceaccount.com", now := 1700000000
          headerB64 := "hdr", payloadB64 := fun _ => "pld", signOk := true
          signErrMsg := "", exchangeOk := true, exchangeErrText := ""
          accessToken := "tok" }).claims =
      { iss := "svc@example.iam.gserviceaccount.com", scope := datastoreScope
        aud := tokenEndpoint, iat := 1700000000, exp := 1700000000 + 3600 } ∧
    (getFirebaseAuthToken
        { clientEmail := "svc@example.iam.gserviceaccount.com", now := 1700000000
          headerB64 := "hdr", payloadB64 := fun _ => "pld", signOk := true
          signErrMsg := "", exchangeOk := true, exchangeErrText := ""
          accessToken := "tok" }).outcome = .ok "tok" := by
  refine ⟨(c9_mint_claims_and_propagation _).1, ?_⟩
  exact (c9_mint_claims_and_propagation _).2.2.2.2.2.2 rfl rfl

/-- An LLM payload that passes the Zod itinerary schema although it has
a single day (with all three activities in the morning) — regardless of
the requested trip length. -/
def c2Payload : Jv :=
  .obj [("destination", .str "Paris"), ("durationDays", .num ⟨2, 1⟩),
    ("itinerary", .arr [
      .obj [("day", .num ⟨1, 1⟩), ("theme", .str "History"),
        ("activities", .arr [
          .obj [("time", .str "Morning"), ("description", .str "Walk the halls"),
            ("location", .str "Louvre")],
          .obj [("time", .str "Morning"), ("description", .str "See the gardens"),
            ("location", .str "Tuileries")],
          .obj [("time", .str "Morning"), ("description", .str "Cross the bridge"),
            ("location", .str "Pont Neuf")]])]])]

/-- Run oracle for the C2 counterexample: the completion succeeds with
`c2Payload`; every store/mint interaction succeeds. -/
def c2Env : RunEnv :=
  { completion := fun _ => .success (some (.valid c2Payload))
    zodDiag := ""
    mintOk := true
    mintErrMsg := ""
    completedWriteOk := true
    storeErrText := ""
    catchMintOk := true
    failedWriteOk := true
    tick := 9 }

/-- C2 counterexample: a generation run for a requested 2-day trip
succeeds (terminal `status=completed`, `error=null`) although the
stored itinerary has 1 day, not 2, and that day's three activity times
are Morning/Morning/Morning rather than the three enum values in some
order: the schema never compares the itinerary length with the
requested `durationDays` and never requires distinct `time` values. -/
theorem c2_counterexample :
    itineraryCheck c2Payload = true ∧
    (runGenerate c2Env (createDoc "job-2" "Paris" ⟨2, 1⟩ 0)).1.status = .completed ∧
    (runGenerate c2Env (createDoc "job-2" "Paris" ⟨2, 1⟩ 0)).1.error = none ∧
    (runGenerate c2Env (createDoc "job-2" "Paris" ⟨2, 1⟩ 0)).1.durationDays = ⟨2, 1⟩ ∧
    (runGenerate c2Env (createDoc "job-2" "Paris" ⟨2, 1⟩ 0)).1.itinerary.length = 1 ∧
    ¬ (((runGenerate c2Env (createDoc "job-2" "Paris" ⟨2, 1⟩ 0)).1.itinerary.length : ℤ) =
        (runGenerate c2Env (createDoc "job-2" "Paris" ⟨2, 1⟩ 0)).1.durationDays.toInt) ∧
    (runGenerate c2Env (createDoc "job-2" "Paris" ⟨2, 1⟩ 0)).1.itinerary.map
        (fun day => day.activities.map (fun a => a.time)) =
      [["Morning", "Morning", "Morning"]] := by
  decide

/-- C2 amended: a successful generation run ends with
`status=completed`, `error=null`, a `completedAt` timestamp, and an
itinerary equal to the validated payload's `itinerary` array — whose
length is not constrained to the requested `durationDays` — in which
every day has exactly 3 activities whose `time` values each belong to
the enum {Morning, Afternoon, Evening} (not necessarily distinct). -/
theorem c2_amended_success_shape (env : RunEnv) (d : JobDoc) (v : Jv)
    (hc : env.completion 0 = .success (some (.valid v)))
    (hv : itineraryCheck v = true)
    (hm : env.mintOk = true) (hw : env.completedWriteOk = true) :
    (runGenerate env d).1.status = .completed ∧
    (runGenerate env d).1.error = none ∧
    (runGenerate env d).1.completedAt = some env.tick ∧
    (runGenerate env d).1.itinerary = extractDays v ∧
    ∀ day ∈ (runGenerate env d).1.itinerary,
      day.activities.length = 3 ∧
        ∀ a ∈ day.activities,
          a.time = "Morning" ∨ a.time = "Afternoon" ∨ a.time = "Evening" := by
  have hrun : (runGenerate env d).1 = applyPatch d (completedFields (extractDays v) env.tick) := by
    unfold runGenerate
    have hg : generateResult env = .ok (extractDays v) := by
      simp [generateResult, hc, parseContent, hv]
    rw [hg]
    simp [hm, hw]
  rw [hrun]
  refine ⟨rfl, rfl, rfl, rfl, ?_⟩
  intro day hday
  exact itineraryCheck_good v hv day (by simpa [applyPatch, completedFields] using hday)

/-- Witness for the amended C2 at the concrete oracle of the
counterexample. -/
theorem c2_amended_success_shape_witness :
    (runGenerate c2Env (createDoc "job-2" "Paris" ⟨2, 1⟩ 0)).1.status = .completed ∧
    (runGenerate c2Env (createDoc "job-2" "Paris" ⟨2, 1⟩ 0)).1.error = none ∧
    (runGenerate c2Env (createDoc "job-2" "Paris" ⟨2, 1⟩ 0)).1.completedAt = some 9 ∧
    (runGenerate c2Env (createDoc "job-2" "Paris" ⟨2, 1⟩ 0)).1.itinerary =
      extractDays c2Payload := by
  obtain ⟨h1, h2, h3, h4, -⟩ :=
    c2_amended_success_shape c2Env (createDoc "job-2" "Paris" ⟨2, 1⟩ 0) c2Payload rfl
      (by decide) rfl rfl
  exact ⟨h1, h2, h3, h4⟩

/-- An LLM payload whose `itinerary` array is empty: `z.array(daySchema)`
has no minimum length, so it passes the schema. -/
def c3Payload : Jv :=
  .obj [("destination", .str "Nowhere"), ("durationDays", .num ⟨1, 1⟩), ("itinerary", .arr [])]

/-- Run oracle for the C3 counterexample. -/
def c3Env : RunEnv :=
  { completion := fun _ => .success (some (.valid c3Payload))
    zodDiag := ""
    mintOk := true
    mintErrMsg := ""
    completedWriteOk := true
    storeErrText := ""
    catchMintOk := true
    failedWriteOk := true
    tick := 4 }

/-- C3 counterexample: the completed-status write can produce a
document with `status=completed` and an empty `itinerary` (the schema
accepts an empty itinerary array), refuting
"`itinerary` is non-empty if and only if `status = completed`". -/
theorem c3_counterexample :
    itineraryCheck c3Payload = true ∧
    (runGenerate c3Env (createDoc "job-3" "Nowhere" ⟨1, 1⟩ 0)).1.status = .completed ∧
    (runGenerate c3Env (createDoc "job-3" "Nowhere" ⟨1, 1⟩ 0)).1.itinerary = [] := by
  decide

/-- C3 amended: in every job document reachable by the create write and
at most one background run, a non-empty `itinerary` implies
`status = completed` (but not conversely: a completed document may have
an empty itinerary), and `error` is non-null if and only if
`status = failed`. -/
theorem c3_amended_invariant (env : RunEnv) (jobId dest : String) (dur : JsNum) (t : Nat) :
    ∀ d ∈ [createDoc jobId dest dur t, (runGenerate env (createDoc jobId dest dur t)).1],
      (d.itinerary ≠ [] → d.status = .completed) ∧
      (d.error ≠ none ↔ d.status = .failed) := by
  intro d hd
  simp only [List.mem_cons, List.mem_singleton, List.not_mem_nil, or_false] at hd
  rcases hd with rfl | rfl
  · exact ⟨fun h => absurd rfl h, by simp [createDoc]⟩
  · rcases runGenerate_cases env (createDoc jobId dest dur t) with h | ⟨days, -, h⟩ | ⟨m, h⟩
    · rw [h]
      exact ⟨fun hne => absurd rfl hne, by simp [createDoc]⟩
    · rw [h]
      exact ⟨fun _ => rfl, by simp [applyPatch, completedFields]⟩
    · rw [h]
      constructor
      · intro hne
        exact absurd (show (applyPatch (createDoc jobId dest dur t)
            (failedFields m env.tick)).itinerary = [] by
          simp [applyPatch, failedFields, createDoc]) hne
      · simp [applyPatch, failedFields]

/-- Witness for the amended C3, instantiated at the terminal document
of the concrete counterexample run. -/
theorem c3_amended_invariant_witness :
    ((runGenerate c3Env (createDoc "job-3" "Nowhere" ⟨1, 1⟩ 0)).1.itinerary ≠ [] →
      (runGenerate c3Env (createDoc "job-3" "Nowhere" ⟨1, 1⟩ 0)).1.status = .completed) ∧
    ((runGenerate c3Env (createDoc "job-3" "Nowhere" ⟨1, 1⟩ 0)).1.error ≠ none ↔
      (runGenerate c3Env (createDoc "job-3" "Nowhere" ⟨1, 1⟩ 0)).1.status = .failed) :=
  c3_amended_invariant c3Env "job-3" "Nowhere" ⟨1, 1⟩ 0
    (runGenerate c3Env (createDoc "job-3" "Nowhere" ⟨1, 1⟩ 0)).1 (by simp)

/-- C4: the validation pipeline is parse-then-validate. (a) A non-JSON
completion text throws at `JSON.parse` and, once the best-effort failed
write lands, the job is `failed` with the malformed-output message
`'Invalid JSON returned by OpenAI: ...'` and its `itinerary` is
untouched (empty for a job fresh from creation). (b) A parseable
payload failing the Zod schema ends `failed` with the schema-violation
message `'Invalid itinerary structure: ...'`. (c) Only a payload that
passed both stages is ever written as `completed`. -/
theorem c4_parse_then_validate (env : RunEnv) (d : JobDoc) (hd : d.status = .processing) :
    (∀ diag, env.completion 0 = .success (some (.invalid diag)) →
      env.catchMintOk = true → env.failedWriteOk = true →
      (runGenerate env d).1.status = .failed ∧
      (runGenerate env d).1.error = some ("Invalid JSON returned by OpenAI: " ++ diag) ∧
      (runGenerate env d).1.itinerary = d.itinerary) ∧
    (∀ c v, env.completion 0 = .success c → parseContent c = .ok v →
      itineraryCheck v = false →
      env.catchMintOk = true → env.failedWriteOk = true →
      (runGenerate env d).1.status = .failed ∧
      (runGenerate env d).1.error =
        some ("Invalid itinerary structure: " ++ env.zodDiag) ∧
      (runGenerate env d).1.itinerary = d.itinerary) ∧
    ((runGenerate env d).1.status = .completed →
      ∃ c v, env.completion 0 = .success c ∧ parseContent c = .ok v ∧
        itineraryCheck v = true) := by
  refine ⟨?_, ?_, ?_⟩
  · intro diag hc h1 h2
    have hg : generateResult env = .error ("Invalid JSON returned by OpenAI: " ++ diag) := by
      simp [generateResult, hc, parseContent]
    rw [runGenerate_error env d _ hg, catchBranch_writes env d _ h1 h2]
    exact ⟨rfl, rfl, rfl⟩
  · intro c v hc hp hv h1 h2
    have hg : generateResult env = .error ("Invalid itinerary structure: " ++ env.zodDiag) := by
      simp [generateResult, hc, hp, hv]
    rw [runGenerate_error env d _ hg, catchBranch_writes env d _ h1 h2]
    exact ⟨rfl, rfl, rfl⟩
  · intro hcomp
    rcases runGenerate_cases env d with h | ⟨days, hg, h⟩ | ⟨m, h⟩
    · rw [h] at hcomp
      rw [hd] at hcomp
      exact absurd hcomp (by simp)
    · obtain ⟨c, v, hc, hp, hv, -⟩ := generateResult_ok env days hg
      exact ⟨c, v, hc, hp, hv⟩
    · rw [h] at hcomp
      exact absurd hcomp (by simp [applyPatch, failedFields])

/-- Witness for C4: a non-JSON completion text, with the best-effort
failed write succeeding, leaves a failed job carrying the
malformed-output message and an untouched (empty) itinerary. -/
theorem c4_parse_then_validate_witness :
    (runGenerate
        { completion := fun _ => .success (some (.invalid "Unexpected token o in JSON"))
          zodDiag := "", mintOk := true, mintErrMsg := "", completedWriteOk := true
          storeErrText := "", catchMintOk := true, failedWriteOk := true, tick := 3 }
        (createDoc "job-4" "Rome" ⟨2, 1⟩ 0)).1.status = .failed ∧
    (runGenerate
        { completion := fun _ => .success (some (.invalid "Unexpected token o in JSON"))
          zodDiag := "", mintOk := true, mintErrMsg := "", completedWriteOk := true
          storeErrText := "", catchMintOk := true, failedWriteOk := true, tick := 3 }
        (createDoc "job-4" "Rome" ⟨2, 1⟩ 0)).1.error =
      some ("Invalid JSON returned by OpenAI: " ++ "Unexpected token o in JSON") ∧
    (runGenerate
        { completion := fun _ => .success (some (.invalid "Unexpected token o in JSON"))
          zodDiag := "", mintOk := true, mintErrMsg := "", completedWriteOk := true
          storeErrText := "", catchMintOk := true, failedWriteOk := true, tick := 3 }
        (createDoc "job-4" "Rome" ⟨2, 1⟩ 0)).1.itinerary =
      (createDoc "job-4" "Rome" ⟨2, 1⟩ 0).itinerary :=
  (c4_parse_then_validate _ (createDoc "job-4" "Rome" ⟨2, 1⟩ 0) rfl).1
    "Unexpected token o in JSON" rfl rfl rfl

/-- C6: for a valid POST body, the handler's trace is exactly: awaited
create write, then background-task scheduling, then the 202 response
with the `jobId` — the write strictly precedes both; and if the mint or
the create write fails, the handler responds 500, schedules nothing,
and performs no successful create, so no job exists under that id. -/
theorem c6_create_awaited_before_schedule (env : PostEnv) (b : Jv)
    (hb : env.body = some b) (hv : validSubmit b = true) :
    (env.mintOk = true → env.createOk = true →
      handlePost env =
        [.storeCreate (createFields (bodyDest b) (bodyDur b) env.tick) true,
          .scheduleRun, .respond 202 true]) ∧
    ((env.mintOk = false ∨ env.createOk = false) →
      PostEvent.respond 500 false ∈ handlePost env ∧
      PostEvent.scheduleRun ∉ handlePost env ∧
      PostEvent.respond 202 true ∉ handlePost env ∧
      ∀ p : PatchFields, PostEvent.storeCreate p true ∉ handlePost env) := by
  constructor
  · intro hm hc
    unfold handlePost
    rw [hb]
    simp [hv, hm, hc]
  · intro hfail
    unfold handlePost
    rw [hb]
    rcases hfail with hm | hc
    · simp [hv, hm]
    · by_cases hm : env.mintOk = true
      · simp [hv, hm, hc]
      · simp [hv, hm]

/-- Witness for C6 at a concrete valid POST environment. -/
theorem c6_create_awaited_before_schedule_witness :
    handlePost
        { body := some (.obj [("destination", .str "Kyoto"), ("durationDays", .num ⟨4, 1⟩)])
          mintOk := true, createOk := true, tick := 11 } =
      [.storeCreate
          (createFields (bodyDest (.obj [("destination", .str "Kyoto"), ("durationDays", .num ⟨4, 1⟩)]))
            (bodyDur (.obj [("destination", .str "Kyoto"), ("durationDays", .num ⟨4, 1⟩)])) 11) true,
        .scheduleRun, .respond 202 true] :=
  (c6_create_awaited_before_schedule
      { body := some (.obj [("destination", .str "Kyoto"), ("durationDays", .num ⟨4, 1⟩)])
        mintOk := true, createOk := true, tick := 11 }
      (.obj [("destination", .str "Kyoto"), ("durationDays", .num ⟨4, 1⟩)])
      rfl (by decide)).1 rfl rfl

/-- C7: every error of the background run — completion failure, parse
failure, schema failure (all surfacing as `generateResult = .error`),
a mint failure before the completed write, or the completed-status
write failing — leads to the catch block, which patches `status=failed`
with that error's message and a `completedAt` timestamp; if the catch
block's own mint or write fails, the failure is swallowed (the run is
total and returns) and the document is left exactly as it was, i.e.
still `processing` for a job fresh from creation. -/
theorem c7_terminal_failed_write_best_effort (env : RunEnv) (d : JobDoc) :
    (∀ m, generateResult env = .error m →
      (env.catchMintOk = true → env.failedWriteOk = true →
        (runGenerate env d).1 = applyPatch d (failedFields m env.tick) ∧
        (runGenerate env d).1.status = .failed ∧
        (runGenerate env d).1.error = some m ∧
        (runGenerate env d).1.completedAt = some env.tick) ∧
      ((env.catchMintOk = false ∨ env.failedWriteOk = false) →
        (runGenerate env d).1 = d)) ∧
    (∀ days, generateResult env = .ok days → env.mintOk = true →
      env.completedWriteOk = false →
      (env.catchMintOk = true → env.failedWriteOk = true →
        (runGenerate env d).1 =
          applyPatch d
            (failedFields ("Firestore update failed: " ++ env.storeErrText) env.tick)) ∧
      ((env.catchMintOk = false ∨ env.failedWriteOk = false) →
        (runGenerate env d).1 = d)) ∧
    (∀ days, generateResult env = .ok days → env.mintOk = false →
      (env.catchMintOk = true → env.failedWriteOk = true →
        (runGenerate env d).1 = applyPatch d (failedFields env.mintErrMsg env.tick)) ∧
      ((env.catchMintOk = false ∨ env.failedWriteOk = false) →
        (runGenerate env d).1 = d)) := by
  refine ⟨?_, ?_, ?_⟩
  · intro m hg
    constructor
    · intro h1 h2
      rw [runGenerate_error env d m hg, catchBranch_writes env d m h1 h2]
      exact ⟨rfl, rfl, rfl, rfl⟩
    · intro hfail
      rw [runGenerate_error env d m hg, catchBranch_swallows env d m hfail]
  · intro days hg hm hw
    constructor
    · intro h1 h2
      rw [runGenerate_updateFail env d days hg hm hw, catchBranch_writes env d _ h1 h2]
    · intro hfail
      rw [runGenerate_updateFail env d days hg hm hw, catchBranch_swallows env d _ hfail]
  · intro days hg hm
    constructor
    · intro h1 h2
      rw [runGenerate_mintFail env d days hg hm, catchBranch_writes env d _ h1 h2]
    · intro hfail
      rw [runGenerate_mintFail env d days hg hm, catchBranch_swallows env d _ hfail]

/-- Witness for C7: a completion failure whose best-effort failed write
itself fails leaves the document untouched — still `processing`. -/
theorem c7_terminal_failed_write_best_effort_witness :
    (runGenerate
        { completion := fun _ => .failure .serverError "500 Internal Server Error"
          zodDiag := "", mintOk := true, mintErrMsg := "", completedWriteOk := true
          storeErrText := "", catchMintOk := true, failedWriteOk := false, tick := 6 }
        (createDoc "job-7" "Oslo" ⟨2, 1⟩ 1)).1 = createDoc "job-7" "Oslo" ⟨2, 1⟩ 1 :=
  ((c7_terminal_failed_write_best_effort
      { completion := fun _ => .failure .serverError "500 Internal Server Error"
        zodDiag := "", mintOk := true, mintErrMsg := "", completedWriteOk := true
        storeErrText := "", catchMintOk := true, failedWriteOk := false, tick := 6 }
      (createDoc "job-7" "Oslo" ⟨2, 1⟩ 1)).1
    "500 Internal Server Error" rfl).2 (Or.inr rfl)

/-- C10: when the completion message content is absent or null, the
code substitutes the literal `'{}'`, which parses to the empty object;
that object fails the Zod schema, so (once the failed write lands) the
job's error is the schema-violation `'Invalid itinerary structure:'`
message — never the JSON-parse one. -/
theorem c10_null_content_schema_failure (env : RunEnv) (d : JobDoc)
    (hc : env.completion 0 = .success none)
    (h1 : env.catchMintOk = true) (h2 : env.failedWriteOk = true) :
    parseContent none = .ok (Jv.obj []) ∧
    itineraryCheck (Jv.obj []) = false ∧
    (runGenerate env d).1.status = .failed ∧
    (runGenerate env d).1.error =
      some ("Invalid itinerary structure: " ++ env.zodDiag) := by
  have hg : generateResult env = .error ("Invalid itinerary structure: " ++ env.zodDiag) := by
    simp [generateResult, hc, parseContent, itineraryCheck, jLookup]
  rw [runGenerate_error env d _ hg, catchBranch_writes env d _ h1 h2]
  exact ⟨rfl, by decide, rfl, rfl⟩

/-- Witness for C10 at a concrete oracle with null message content. -/
theorem c10_null_content_schema_failure_witness :
    parseContent none = .ok (Jv.obj []) ∧
    itineraryCheck (Jv.obj []) = false ∧
    (runGenerate
        { completion := fun _ => .success none
          zodDiag := "Required destination", mintOk := true, mintErrMsg := ""
          completedWriteOk := true, storeErrText := "", catchMintOk := true
          failedWriteOk := true, tick := 2 }
        (createDoc "job-10" "Lima" ⟨1, 1⟩ 0)).1.status = .failed ∧
    (runGenerate
        { completion := fun _ => .success none
          zodDiag := "Required destination", mintOk := true, mintErrMsg := ""
          completedWriteOk := true, storeErrText := "", catchMintOk := true
          failedWriteOk := true, tick := 2 }
        (createDoc "job-10" "Lima" ⟨1, 1⟩ 0)).1.error =
      some ("Invalid itinerary structure: " ++ "Required destination") :=
  c10_null_content_schema_failure _ (createDoc "job-10" "Lima" ⟨1, 1⟩ 0) rfl rfl rfl

end Itin
